import Mathlib

/-!
Verification of the AutoMate browser engine (src/src/browser/engine.py):
shallow embedding of the stealth fingerprint subsystem, the stealth-script
synthesizer, the human-behavior simulation primitives, the session startup
sequence and the command dispatcher's state effects, together with theorems
settling the specification claims.

Python randomness (`random.choice`, `random.randint`, `random.uniform`,
`random.random`) is modelled by passing the outcome of every draw explicitly,
constrained by a validity predicate that captures exactly the set of outcomes
the Python primitive can produce.  Python floats are modelled as exact
rationals.
-/

namespace AutoMate

/-- engine.py WEBGL_PROFILES entries: a vendor/renderer string pair. -/
structure WebglProfile where
  vendor : String
  renderer : String
deriving DecidableEq, Repr

/-- engine.py SCREEN_PROFILES entries. -/
structure ScreenProfile where
  width : Int
  height : Int
  avail_width : Int
  avail_height : Int
  dpr : Rat
  color_depth : Int
deriving DecidableEq, Repr

/-- engine.py PLATFORM_PROFILES entries. -/
structure PlatformProfile where
  platform : String
  os : String
  ua_platform : String
  hw_concurrency : Nat
  device_memory : Nat
deriving DecidableEq, Repr

/-- engine.py TIMEZONE_MAP rows: IANA name, UTC offset minutes, locale. -/
structure TzEntry where
  tz : String
  offset : Int
  locale : String
deriving DecidableEq, Repr

/-- engine.py lines 78-101. -/
def WEBGL_PROFILES : List WebglProfile := [
  ⟨"Intel Inc.", "Intel Iris OpenGL Engine"⟩,
  ⟨"Intel Inc.", "Intel(R) UHD Graphics 630"⟩,
  ⟨"Intel Inc.", "Intel(R) HD Graphics 620"⟩,
  ⟨"Intel Inc.", "Intel Iris Plus Graphics 640"⟩,
  ⟨"Google Inc. (NVIDIA)", "ANGLE (NVIDIA GeForce GTX 1060 Direct3D11 vs_5_0 ps_5_0)"⟩,
  ⟨"Google Inc. (NVIDIA)", "ANGLE (NVIDIA GeForce RTX 3060 Direct3D11 vs_5_0 ps_5_0)"⟩,
  ⟨"Google Inc. (AMD)", "ANGLE (AMD Radeon RX 580 Direct3D11 vs_5_0 ps_5_0)"⟩,
  ⟨"Google Inc. (Intel)", "ANGLE (Intel(R) UHD Graphics 770 Direct3D11 vs_5_0 ps_5_0)"⟩,
  ⟨"Apple", "Apple M1"⟩,
  ⟨"Apple", "Apple M2 Pro"⟩]

/-- engine.py lines 103-168. -/
def SCREEN_PROFILES : List ScreenProfile := [
  ⟨1920, 1080, 1920, 1040, 1, 24⟩,
  ⟨2560, 1440, 2560, 1400, 1, 24⟩,
  ⟨1536, 864, 1536, 824, 5/4, 24⟩,
  ⟨1440, 900, 1440, 860, 2, 30⟩,
  ⟨1680, 1050, 1680, 1010, 1, 24⟩,
  ⟨1366, 768, 1366, 728, 1, 24⟩,
  ⟨1920, 1200, 1920, 1160, 1, 24⟩,
  ⟨3840, 2160, 3840, 2120, 3/2, 30⟩]

/-- engine.py lines 170-220. -/
def PLATFORM_PROFILES : List PlatformProfile := [
  ⟨"Win32", "windows", "Windows NT 10.0; Win64; x64", 8, 8⟩,
  ⟨"Win32", "windows", "Windows NT 10.0; Win64; x64", 12, 16⟩,
  ⟨"Win32", "windows", "Windows NT 10.0; Win64; x64", 16, 32⟩,
  ⟨"MacIntel", "macos", "Macintosh; Intel Mac OS X 10_15_7", 8, 16⟩,
  ⟨"MacIntel", "macos", "Macintosh; Intel Mac OS X 14_0", 10, 16⟩,
  ⟨"Linux x86_64", "linux", "X11; Linux x86_64", 4, 8⟩,
  ⟨"Linux x86_64", "linux", "X11; Linux x86_64", 8, 16⟩]

/-- engine.py lines 222-236, the "US" rows. -/
def TIMEZONE_US : List TzEntry := [
  ⟨"America/New_York", -300, "en-US"⟩,
  ⟨"America/Chicago", -360, "en-US"⟩,
  ⟨"America/Los_Angeles", -480, "en-US"⟩]

/-- engine.py lines 222-236, the "EU" rows. -/
def TIMEZONE_EU : List TzEntry := [
  ⟨"Europe/London", 0, "en-GB"⟩,
  ⟨"Europe/Berlin", 60, "de-DE"⟩,
  ⟨"Europe/Paris", 60, "fr-FR"⟩]

/-- engine.py lines 222-236, the "default" rows. -/
def TIMEZONE_DEFAULT : List TzEntry := [⟨"America/New_York", -300, "en-US"⟩]

/-- engine.py TIMEZONE_MAP (lines 222-236), as an association list. -/
def TIMEZONE_MAP : List (String × List TzEntry) := [
  ("US", TIMEZONE_US), ("EU", TIMEZONE_EU), ("default", TIMEZONE_DEFAULT)]

/-- engine.py FONT_SETS["windows"] (lines 240-257). -/
def FONTS_WINDOWS : List String := [
  "Arial", "Calibri", "Cambria", "Comic Sans MS", "Consolas", "Courier New",
  "Georgia", "Impact", "Lucida Console", "Microsoft Sans Serif",
  "Palatino Linotype", "Segoe UI", "Tahoma", "Times New Roman",
  "Trebuchet MS", "Verdana"]

/-- engine.py FONT_SETS["macos"] (lines 258-274). -/
def FONTS_MACOS : List String := [
  "Arial", "Avenir", "Courier New", "Georgia", "Helvetica", "Helvetica Neue",
  "Lucida Grande", "Menlo", "Monaco", "Palatino", "SF Pro Display",
  "SF Pro Text", "Times New Roman", "Trebuchet MS", "Verdana"]

/-- engine.py FONT_SETS["linux"] (lines 275-290). -/
def FONTS_LINUX : List String := [
  "Arial", "Courier New", "DejaVu Sans", "DejaVu Serif", "FreeMono",
  "FreeSans", "Georgia", "Liberation Mono", "Liberation Sans",
  "Liberation Serif", "Noto Sans", "Times New Roman", "Ubuntu", "Verdana"]

/-- engine.py FONT_SETS (lines 239-291), as an association list. -/
def FONT_SETS : List (String × List String) := [
  ("windows", FONTS_WINDOWS), ("macos", FONTS_MACOS), ("linux", FONTS_LINUX)]

/-- Python `d.get(k)` on a string-keyed dict, as lookup in an association
list (the dicts in engine.py are literal and have distinct keys, so this is
an exact model). -/
def pyGet {β : Type} (d : List (String × β)) (k : String) : Option β :=
  (d.find? (fun p => p.1 == k)).map (fun p => p.2)

/-- Python `d.get(k, dflt)`. -/
def pyGetD {β : Type} (d : List (String × β)) (k : String) (dflt : β) : β :=
  (pyGet d k).getD dflt

/-- The fingerprint profile dict returned by `_generate_fingerprint_profile`
(engine.py lines 307-317). -/
structure Profile where
  webgl : WebglProfile
  screen : ScreenProfile
  platform : PlatformProfile
  timezone : TzEntry
  fonts : List String
  canvas_seed : Nat
  audio_seed : Rat
  hw_concurrency : Nat
  device_memory : Nat
deriving DecidableEq, Repr

/-- The timezone table used for a region:
`TIMEZONE_MAP.get(region, TIMEZONE_MAP["default"])` (engine.py line 299). -/
def tzListFor (region : String) : List TzEntry :=
  pyGetD TIMEZONE_MAP region TIMEZONE_DEFAULT

/-- One outcome of every randomness draw made by
`_generate_fingerprint_profile`: the index chosen by each `random.choice`,
the value returned by `random.randint(1, 2**31)` and the value returned by
`random.random()`. -/
structure FingerprintRand where
  webglIdx : Nat
  screenIdx : Nat
  platformIdx : Nat
  tzIdx : Nat
  canvasDraw : Nat
  audioDraw : Rat
deriving DecidableEq, Repr

/-- The set of outcomes the Python randomness primitives can actually
produce: `random.choice` picks a valid index, `random.randint(1, 2**31)`
returns an integer in the closed interval [1, 2^31] (Python `randint` is
inclusive at both ends), `random.random()` returns a value in [0, 1). -/
def FingerprintRand.Valid (r : FingerprintRand) (region : String) : Prop :=
  r.webglIdx < WEBGL_PROFILES.length ∧
  r.screenIdx < SCREEN_PROFILES.length ∧
  r.platformIdx < PLATFORM_PROFILES.length ∧
  r.tzIdx < (tzListFor region).length ∧
  1 ≤ r.canvasDraw ∧ r.canvasDraw ≤ 2 ^ 31 ∧
  0 ≤ r.audioDraw ∧ r.audioDraw < 1

instance (r : FingerprintRand) (region : String) :
    Decidable (r.Valid region) := by
  unfold FingerprintRand.Valid; infer_instance

/-- `_generate_fingerprint_profile` (engine.py lines 294-317), with the
randomness outcomes passed explicitly.  `random.choice(xs)` with a valid
index i is `xs[i]`; `fonts` is
`FONT_SETS.get(platform["os"], FONT_SETS["windows"])`;
`audio_seed = random.random() * 0.0001`. -/
def _generate_fingerprint_profile (region : String) (r : FingerprintRand) :
    Profile :=
  let webgl := WEBGL_PROFILES.getD r.webglIdx ⟨"", ""⟩
  let screen := SCREEN_PROFILES.getD r.screenIdx ⟨0, 0, 0, 0, 0, 0⟩
  let platform := PLATFORM_PROFILES.getD r.platformIdx ⟨"", "", "", 0, 0⟩
  let tz_list := tzListFor region
  let tz := tz_list.getD r.tzIdx ⟨"", 0, ""⟩
  let fonts := pyGetD FONT_SETS platform.os FONTS_WINDOWS
  let canvas_seed := r.canvasDraw
  let audio_seed := r.audioDraw * (1 / 10000)
  { webgl := webgl, screen := screen, platform := platform, timezone := tz,
    fonts := fonts, canvas_seed := canvas_seed, audio_seed := audio_seed,
    hw_concurrency := platform.hw_concurrency,
    device_memory := platform.device_memory }

/-- Python `int()` applied to a real number: truncation toward zero
(`int(1.8) = 1`, `int(-1.8) = -1`). -/
def pyInt (q : Rat) : Int := if q < 0 then -(Int.floor (-q)) else Int.floor q

/-- Python `random.uniform(a, b)` with the unit draw `r` made explicit:
`a + (b - a) * random()`; for `r` in [0, 1] the result lies in [a, b]. -/
def uniform (a b r : Rat) : Rat := a + r * (b - a)

/-- The selenium `By` locator strategies referenced by engine.py. -/
inductive ByStrategy where
  | CSS_SELECTOR | XPATH | ID | CLASS_NAME | TAG_NAME | NAME
  | LINK_TEXT | PARTIAL_LINK_TEXT
deriving DecidableEq, Repr

/-- engine.py BY_MAP (lines 787-796). -/
def BY_MAP : List (String × ByStrategy) := [
  ("css", .CSS_SELECTOR), ("xpath", .XPATH), ("id", .ID),
  ("class", .CLASS_NAME), ("tag", .TAG_NAME), ("name", .NAME),
  ("link_text", .LINK_TEXT), ("partial_link_text", .PARTIAL_LINK_TEXT)]

/-- `by_str` (engine.py lines 835-836): `BY_MAP.get(s, By.CSS_SELECTOR)`. -/
def by_str (s : String) : ByStrategy := pyGetD BY_MAP s .CSS_SELECTOR

/-- An observable event issued by `_human_type_text`: a single-character
`send_keys` call or a `time.sleep` of the given duration (seconds). -/
inductive TypeEvent where
  | sendKeys (c : Char)
  | sleep (d : Rat)
deriving DecidableEq, Repr

/-- The randomness consumed per character by `_human_type_text`: the unit
draw behind the base-delay `random.uniform`, the `random.random()` draw
compared against 0.05, and the unit draw behind the thinking-pause
`random.uniform(0.3, 0.8)`. -/
structure CharRand where
  baseDraw : Rat
  pauseDraw : Rat
  pauseLen : Rat
deriving DecidableEq, Repr

/-- Outcomes the Python randomness can produce: unit draws in [0, 1]
(`random.random()` itself is in [0, 1)). -/
def CharRand.Valid (r : CharRand) : Prop :=
  0 ≤ r.baseDraw ∧ r.baseDraw ≤ 1 ∧ 0 ≤ r.pauseDraw ∧ r.pauseDraw < 1 ∧
  0 ≤ r.pauseLen ∧ r.pauseLen ≤ 1

instance (r : CharRand) : Decidable r.Valid := by
  unfold CharRand.Valid; infer_instance

/-- The base-delay bounds for a character, following the branch order of
engine.py lines 957-962: `char in " .,!?"` gives uniform(0.08, 0.20),
`char.isupper()` gives uniform(0.05, 0.15), otherwise uniform(0.03, 0.12).
Python's `char.isupper()` is a lookup in the full Unicode character
database (it is Unicode-aware, e.g. true on non-ASCII uppercase letters),
external data like the selenium browser itself; it is therefore passed as
the explicit parameter `isupper`, and every theorem quantifies over it.
Lean's `Char.isUpper` is its ASCII restriction, usable to instantiate it
on ASCII text. -/
def charDelayBounds (isupper : Char → Bool) (c : Char) : Rat × Rat :=
  if c ∈ " .,!?".toList then (8/100, 20/100)
  else if isupper c then (5/100, 15/100)
  else (3/100, 12/100)

/-- Shift a randomness stream by one position. -/
def shiftRand {α : Type} (r : Nat → α) : Nat → α := fun n => r (n + 1)

/-- The events `_human_type_text` issues for one character (engine.py lines
954-965): one `send_keys(char)`, one base-delay sleep, and, when
`random.random() < 0.05`, one extra thinking-pause sleep of
uniform(0.3, 0.8).  `isupper` is Python's Unicode `str.isupper`. -/
def typeEventsFor (isupper : Char → Bool) (c : Char) (r : CharRand) :
    List TypeEvent :=
  [.sendKeys c,
   .sleep (uniform (charDelayBounds isupper c).1 (charDelayBounds isupper c).2
     r.baseDraw)]
    ++ (if r.pauseDraw < 5/100 then [.sleep (uniform (3/10) (8/10) r.pauseLen)] else [])

/-- `_human_type_text` (engine.py lines 952-965): iterate over the text,
emitting the per-character events in order, consuming one `CharRand` per
character from the stream.  `isupper` is Python's Unicode `str.isupper`. -/
def _human_type_text (isupper : Char → Bool) :
    List Char → (Nat → CharRand) → List TypeEvent
  | [], _ => []
  | c :: cs, r =>
      typeEventsFor isupper c (r 0) ++ _human_type_text isupper cs (shiftRand r)

/-- The number of discrete `send_keys` insertion events in an event list. -/
def sendCount (es : List TypeEvent) : Nat :=
  es.countP fun e => match e with | .sendKeys _ => true | _ => false

/-- The characters inserted by the `send_keys` events, in order. -/
def typedChars (es : List TypeEvent) : List Char :=
  es.filterMap fun e => match e with | .sendKeys c => some c | _ => none

/-- Modelled from the spec (§4.3 Typing, and engine.py lines 952-965): a
keystroke plan for a text is, per character in order, one discrete
`send_keys` event, then a base delay within the character class's bounds,
then — exactly when the thinking-pause draw is below 0.05 — one extra pause
in [0.3, 0.8] seconds.  The character classes are determined by the same
Unicode `str.isupper` classifier the program consults, passed as
`isupper`. -/
inductive KeystrokePlanSpec (isupper : Char → Bool) :
    (Nat → CharRand) → List Char → List TypeEvent → Prop
  | nil (r : Nat → CharRand) : KeystrokePlanSpec isupper r [] []
  | consNoPause (r : Nat → CharRand) (c : Char) (cs : List Char) (d : Rat)
      (es : List TypeEvent)
      (hlo : (charDelayBounds isupper c).1 ≤ d)
      (hhi : d ≤ (charDelayBounds isupper c).2)
      (hnp : ¬ (r 0).pauseDraw < 5/100)
      (htail : KeystrokePlanSpec isupper (shiftRand r) cs es) :
      KeystrokePlanSpec isupper r (c :: cs) (.sendKeys c :: .sleep d :: es)
  | consPause (r : Nat → CharRand) (c : Char) (cs : List Char) (d p : Rat)
      (es : List TypeEvent)
      (hlo : (charDelayBounds isupper c).1 ≤ d)
      (hhi : d ≤ (charDelayBounds isupper c).2)
      (hp : (r 0).pauseDraw < 5/100) (hplo : 3/10 ≤ p) (hphi : p ≤ 8/10)
      (htail : KeystrokePlanSpec isupper (shiftRand r) cs es) :
      KeystrokePlanSpec isupper r (c :: cs)
        (.sendKeys c :: .sleep d :: .sleep p :: es)

/-- The randomness consumed by `_bezier_curve` (engine.py lines 882-913):
the unit draws behind the four `random.uniform` calls and the outcomes of
the four `random.randint` jitters (in [-50, 50] for the first control
point, [-30, 30] for the second). -/
structure BezierRand where
  r1 : Rat
  r2 : Rat
  r3 : Rat
  r4 : Rat
  j1 : Int
  j2 : Int
  j3 : Int
  j4 : Int
deriving DecidableEq, Repr

/-- `_bezier_curve(start, end, steps)` (engine.py lines 882-913): two
randomized control points, then `steps + 1` samples of the cubic Bézier
polynomial at t = i/steps, each coordinate truncated with `int()`. -/
def _bezier_curve (s e : Int × Int) (steps : Nat) (br : BezierRand) :
    List (Int × Int) :=
  let cx1 : Rat := s.1 + uniform (1/10) (4/10) br.r1 * ((e.1 : Rat) - s.1) + br.j1
  let cy1 : Rat := s.2 + uniform (1/10) (4/10) br.r2 * ((e.2 : Rat) - s.2) + br.j2
  let cx2 : Rat := s.1 + uniform (6/10) (9/10) br.r3 * ((e.1 : Rat) - s.1) + br.j3
  let cy2 : Rat := s.2 + uniform (6/10) (9/10) br.r4 * ((e.2 : Rat) - s.2) + br.j4
  (List.range (steps + 1)).map fun (i : Nat) =>
    let t : Rat := (i : Rat) / (steps : Rat)
    let u : Rat := 1 - t
    (pyInt (u ^ 3 * s.1 + 3 * u ^ 2 * t * cx1 + 3 * u * t ^ 2 * cx2 + t ^ 3 * e.1),
     pyInt (u ^ 3 * s.2 + 3 * u ^ 2 * t * cy1 + 3 * u * t ^ 2 * cy2 + t ^ 3 * e.2))

/-- The set of offsets `random.randint(int(extent * 0.2), int(extent * 0.8))`
can produce in `_human_move_to` (engine.py lines 923-928). -/
def OffsetRange (extent off : Int) : Prop :=
  pyInt ((2 : Rat)/10 * extent) ≤ off ∧ off ≤ pyInt ((8 : Rat)/10 * extent)

instance (extent off : Int) : Decidable (OffsetRange extent off) := by
  unfold OffsetRange; infer_instance

/-- The destination point `_human_move_to` aims at (engine.py lines
920-928): the element's location plus the random interior offsets. -/
def _human_move_to_target (loc : Int × Int) (ox oy : Int) : Int × Int :=
  (loc.1 + ox, loc.2 + oy)

/-- A JSON-serialisable value appearing in a command response. -/
inductive JsonVal where
  | str (s : String)
  | num (n : Nat)
deriving DecidableEq, Repr

/-- The `get_stealth_profile` branch of `handle_command` (engine.py lines
1010-1025), as a function of the module global `_stealth_profile`, which is
either the initial empty dict (`none`) or the profile written by `start()`
(`some p`).  Every field is read with `.get(..., dflt).get(..., dflt)`, so
the empty dict yields the literal defaults. -/
def get_stealth_profile_response (sp : Option Profile) :
    Bool × List (String × JsonVal) :=
  (true,
   [("platform", .str (match sp with
      | none => "unknown" | some p => p.platform.platform)),
    ("screen", .str (match sp with
      | none => "0x0"
      | some p => toString p.screen.width ++ "x" ++ toString p.screen.height)),
    ("webgl_vendor", .str (match sp with
      | none => "" | some p => p.webgl.vendor)),
    ("webgl_renderer", .str (match sp with
      | none => "" | some p => p.webgl.renderer)),
    ("timezone", .str (match sp with
      | none => "" | some p => p.timezone.tz)),
    ("locale", .str (match sp with
      | none => "" | some p => p.timezone.locale)),
    ("hw_concurrency", .num (match sp with
      | none => 0 | some p => p.hw_concurrency)),
    ("device_memory", .num (match sp with
      | none => 0 | some p => p.device_memory))])

/-- The outcome environment of one `start()` run (engine.py lines 607-781):
the configured region, the randomness of the profile draw, whether headless
mode was forced (config/env "new", or pyvirtualdisplay missing), and
whether each fallible external call raises. -/
structure StartEnv where
  region : String
  rand : FingerprintRand
  headlessNew : Bool
  displayStartFails : Bool
  chrome1Fails : Bool
  chrome2Fails : Bool
  injectionFails : Bool
deriving DecidableEq, Repr

/-- The module globals touched by `start()`: the `_stealth_profile` dict,
whether the Xvfb virtual display has been started (and not stopped), whether
the browser process is running, and whether the stealth script was
registered with the browser. -/
structure StartState where
  stealthProfile : Option Profile
  displayRunning : Bool
  browserRunning : Bool
  injectionApplied : Bool
deriving DecidableEq, Repr

/-- The dict `start()` returns on success (engine.py lines 772-781). -/
structure StartResult where
  success : Bool
  platform : String
  screen : String
  webgl : String
  timezone : String
  locale : String
deriving DecidableEq, Repr

/-- The success dict built from the generated profile (engine.py lines
772-781). -/
def startResultOf (p : Profile) : StartResult :=
  { success := true
    platform := p.platform.platform
    screen := toString p.screen.width ++ "x" ++ toString p.screen.height
    webgl := p.webgl.renderer
    timezone := p.timezone.tz
    locale := p.timezone.locale }

/-- `start()` (engine.py lines 607-781), modelled as its effect on the
module globals plus its returned value; `Except.error` is the state at the
moment an uncaught exception propagates out of `start()`.  Steps, in source
order:
1. `_stealth_profile = _generate_fingerprint_profile(region)` (line 621);
2. display acquisition (lines 636-647): skipped when headless was forced;
   on `display.start()` failure the exception is caught, `display = None`
   and headless mode is used — the display is not running either way;
3. browser construction (lines 724-730): `uc.Chrome` with `version_main`,
   retried once without it; if the retry also raises, the exception
   propagates with no cleanup of the display;
4. the selenium-stealth call and the two CDP override calls, then the
   stealth-script injection (lines 761-769): wrapped in
   `try/except Exception: pass`, so a rejected injection is swallowed;
5. the success dict is returned (lines 772-781) regardless of step 4. -/
def start (env : StartEnv) (s0 : StartState) :
    Except StartState (StartState × StartResult) :=
  let profile := _generate_fingerprint_profile env.region env.rand
  let s1 := { s0 with stealthProfile := some profile }
  let s2 := if env.headlessNew then s1
            else if env.displayStartFails then s1
            else { s1 with displayRunning := true }
  if env.chrome1Fails && env.chrome2Fails then .error s2
  else
    let s3 := { s2 with browserRunning := true }
    let s4 := { s3 with injectionApplied := !env.injectionFails }
    .ok (s4, startResultOf profile)

/-- The value `start()` hands back to its caller, when it returns at all. -/
def resultOf (e : Except StartState (StartState × StartResult)) :
    Option StartResult :=
  match e with
  | .error _ => none
  | .ok (_, r) => some r

/-- The `_stealth_profile` global after a `start()` run, whether or not the
run raised. -/
def startProfileOf (e : Except StartState (StartState × StartResult)) :
    Option Profile :=
  match e with
  | .error st => st.stealthProfile
  | .ok (st, _) => st.stealthProfile

/-- The state at the moment `start()` raised, when it raised at all. -/
def errorStateOf (e : Except StartState (StartState × StartResult)) :
    Option StartState :=
  match e with
  | .error st => some st
  | .ok _ => none

/-- The module globals of engine.py (lines 68-72) as read and written by
`handle_command`: `_stealth_profile`, `_network_log`,
`_console_logger_injected`, the display resource, and the external browser
session (abstract, of type `B`). -/
structure EngineState (B : Type) where
  stealthProfile : Option Profile
  networkLog : List String
  consoleLoggerInjected : Bool
  displayRunning : Bool
  browser : B

/-- Every `action` string recognized by the `handle_command` dispatch chain
(engine.py lines 986-2047), in source order. -/
def KNOWN_ACTIONS : List String := [
  "navigate", "back", "forward", "refresh", "get_stealth_profile",
  "human_click", "human_type", "human_scroll", "screenshot",
  "screenshot_full", "screenshot_element", "click", "type", "find", "hover",
  "double_click", "right_click", "drag", "scroll", "scroll_to", "get_page",
  "get_html", "execute_js", "submit", "fill_form", "select", "find_forms",
  "find_links", "wait_element", "wait", "press_key", "key_combo", "cookies",
  "set_cookie", "delete_cookie", "delete_cookies", "local_storage_get",
  "local_storage_set", "local_storage_remove", "local_storage_clear",
  "session_storage_get", "session_storage_set", "session_storage_clear",
  "tabs", "new_tab", "switch_tab", "close_tab", "switch_frame", "alert",
  "upload", "get_images", "get_headings", "search_text", "get_meta",
  "extract_table", "console_logs", "get_performance", "get_js_errors",
  "inject_network_logger", "get_network_log", "clear_network_log",
  "highlight", "get_computed_style", "get_bounding_box", "find_in_shadow",
  "click_in_shadow", "set_geolocation", "check_accessibility",
  "get_aria_info", "click_text", "find_text", "get_interactive",
  "get_aria_tree", "print_to_pdf", "control_media", "get_media_state",
  "seek_media", "set_window_size", "maximize_window", "save_html",
  "google_search", "duckduckgo_search", "inject_error_catcher",
  "get_canvas_data", "emulate_device", "close"]

/-- The state effect of `handle_command` (engine.py lines 986-2047).
Although the function declares `global browser, display, _network_log,
_console_logger_injected`, no branch assigns any of those names, and
`_stealth_profile` is not declared global at all and is only read (via
`.get`) in the `get_stealth_profile` branch.  Every recognized branch acts
only on the external browser session (modelled by the effect `eff` the
branch's selenium/CDP calls have on it); the `close` branch additionally
stops the virtual display; an unknown action returns an error dict without
touching anything. -/
def handle_command_state {B : Type} (action : String) (eff : B → B)
    (s : EngineState B) : EngineState B :=
  if action = "close" then
    { s with browser := eff s.browser, displayRunning := false }
  else if KNOWN_ACTIONS.contains action then
    { s with browser := eff s.browser }
  else s

/-- A definite textual rendering of a rational number.  Python renders the
interpolated numbers with `str()`; the integral values render identically,
and for the two fractional kinds (`screen["dpr"]`, `audio_seed`) the claims
depend only on the rendering being a function of the value, not on its
decimal shape, so the embedding renders them as exact fractions. -/
def pyNumStr (q : Rat) : String :=
  if q.den = 1 then toString q.num
  else toString q.num ++ "/" ++ toString q.den

/-- `json.dumps` on a list of plain font-name strings (engine.py line 330):
bracketed, comma-and-space separated, double-quoted (no character of the
font catalogues needs JSON escaping). -/
def jsonDumpsStrList (xs : List String) : String :=
  "[" ++ String.intercalate ", " (xs.map (fun s => "\"" ++ s ++ "\"")) ++ "]"

/-- `_build_stealth_js(profile)` (engine.py lines 320-601): pure string
templating of the thirteen-part stealth script from the profile's fields.
The script text is reproduced verbatim from the source f-string, with
`\x7b`/`\x7d`/`\x27` escaping braces and apostrophes; the interpolation
slots are exactly those of the source. -/
def _build_stealth_js (profile : Profile) : String :=
  let webgl := profile.webgl
  let screen := profile.screen
  let platform := profile.platform
  let _tz := profile.timezone
  let canvas_seed := profile.canvas_seed
  let audio_seed := profile.audio_seed
  let hw := profile.hw_concurrency
  let mem := profile.device_memory
  let fonts_json := jsonDumpsStrList profile.fonts
  String.join [
    "\n",
    "    // ===== 1. navigator.webdriver removal =====\n",
    "    Object.defineProperty(navigator, \x27webdriver\x27, \x7bget: () => undefined\x7d);\n",
    "    delete navigator.__proto__.webdriver;\n",
    "\n",
    "    // ===== 2. CDP leak patching =====\n",
    "    // Remove Runtime.evaluate artifacts\n",
    "    (function() \x7b\n",
    "        const origError = Error;\n",
    "        const origStackDesc = Object.getOwnPropertyDescriptor(origError.prototype, \x27stack\x27);\n",
    "        if (origStackDesc && origStackDesc.get) \x7b\n",
    "            const origGetter = origStackDesc.get;\n",
    "            Object.defineProperty(origError.prototype, \x27stack\x27, \x7b\n",
    "                get: function() \x7b\n",
    "                    let stack = origGetter.call(this);\n",
    "                    if (stack) \x7b\n",
    "                        stack = stack.replace(/\\n\\s+at\\s+Object\\.cdp_.*/g, \x27\x27);\n",
    "                        stack = stack.replace(/\\n\\s+at\\s+Runtime\\.evaluate.*/g, \x27\x27);\n",
    "                        stack = stack.replace(/\\n\\s+at\\s+Object\\.inject.*/g, \x27\x27);\n",
    "                    \x7d\n",
    "                    return stack;\n",
    "                \x7d\n",
    "            \x7d);\n",
    "        \x7d\n",
    "        // Remove __cdp_binding if present\n",
    "        try \x7b delete window.__cdp_binding; \x7d catch(e) \x7b\x7d\n",
    "        try \x7b delete window.cdc_adoQpoasnfa76pfcZLmcfl_Array; \x7d catch(e) \x7b\x7d\n",
    "        try \x7b delete window.cdc_adoQpoasnfa76pfcZLmcfl_Promise; \x7d catch(e) \x7b\x7d\n",
    "        try \x7b delete window.cdc_adoQpoasnfa76pfcZLmcfl_Symbol; \x7d catch(e) \x7b\x7d\n",
    "        // Remove $cdc_ prefixed properties from document\n",
    "        for (let prop of Object.getOwnPropertyNames(document)) \x7b\n",
    "            if (prop.match(/\\$cdc_|\\$chrome_/)) \x7b\n",
    "                try \x7b delete document[prop]; \x7d catch(e) \x7b\x7d\n",
    "            \x7d\n",
    "        \x7d\n",
    "    \x7d)();\n",
    "\n",
    "    // ===== 3. Realistic navigator.plugins & mimeTypes =====\n",
    "    (function() \x7b\n",
    "        const pluginData = [\n",
    "            \x7bname: \x27Chrome PDF Plugin\x27, filename: \x27internal-pdf-viewer\x27, description: \x27Portable Document Format\x27, mimeTypes: [\x7btype: \x27application/x-google-chrome-pdf\x27, suffixes: \x27pdf\x27, description: \x27Portable Document Format\x27\x7d]\x7d,\n",
    "            \x7bname: \x27Chrome PDF Viewer\x27, filename: \x27mhjfbmdgcfjbbpaeojofohoefgiehjai\x27, description: \x27\x27, mimeTypes: [\x7btype: \x27application/pdf\x27, suffixes: \x27pdf\x27, description: \x27\x27\x7d]\x7d,\n",
    "            \x7bname: \x27Native Client\x27, filename: \x27internal-nacl-plugin\x27, description: \x27\x27, mimeTypes: [\x7btype: \x27application/x-nacl\x27, suffixes: \x27\x27, description: \x27Native Client Executable\x27\x7d, \x7btype: \x27application/x-pnacl\x27, suffixes: \x27\x27, description: \x27Portable Native Client Executable\x27\x7d]\x7d,\n",
    "        ];\n",
    "        const createMimeType = (mt, plugin) => \x7b\n",
    "            const m = Object.create(MimeType.prototype);\n",
    "            Object.defineProperties(m, \x7b\n",
    "                type: \x7bvalue: mt.type, enumerable: true\x7d,\n",
    "                suffixes: \x7bvalue: mt.suffixes, enumerable: true\x7d,\n",
    "                description: \x7bvalue: mt.description, enumerable: true\x7d,\n",
    "                enabledPlugin: \x7bvalue: plugin, enumerable: true\x7d,\n",
    "            \x7d);\n",
    "            return m;\n",
    "        \x7d;\n",
    "        const createPlugin = (pd) => \x7b\n",
    "            const p = Object.create(Plugin.prototype);\n",
    "            Object.defineProperties(p, \x7b\n",
    "                name: \x7bvalue: pd.name, enumerable: true\x7d,\n",
    "                filename: \x7bvalue: pd.filename, enumerable: true\x7d,\n",
    "                description: \x7bvalue: pd.description, enumerable: true\x7d,\n",
    "                length: \x7bvalue: pd.mimeTypes.length, enumerable: true\x7d,\n",
    "            \x7d);\n",
    "            pd.mimeTypes.forEach((mt, i) => \x7b\n",
    "                const mimeObj = createMimeType(mt, p);\n",
    "                Object.defineProperty(p, i, \x7bvalue: mimeObj, enumerable: false\x7d);\n",
    "                Object.defineProperty(p, mt.type, \x7bvalue: mimeObj, enumerable: false\x7d);\n",
    "            \x7d);\n",
    "            p[Symbol.iterator] = function*() \x7b for(let i=0; i<this.length; i++) yield this[i]; \x7d;\n",
    "            return p;\n",
    "        \x7d;\n",
    "        const plugins = pluginData.map(createPlugin);\n",
    "        const pluginArray = Object.create(PluginArray.prototype);\n",
    "        plugins.forEach((p, i) => \x7b\n",
    "            Object.defineProperty(pluginArray, i, \x7bvalue: p, enumerable: false\x7d);\n",
    "            Object.defineProperty(pluginArray, p.name, \x7bvalue: p, enumerable: false\x7d);\n",
    "        \x7d);\n",
    "        Object.defineProperty(pluginArray, \x27length\x27, \x7bvalue: plugins.length, enumerable: true\x7d);\n",
    "        pluginArray[Symbol.iterator] = function*() \x7b for(let i=0; i<this.length; i++) yield this[i]; \x7d;\n",
    "        Object.defineProperty(navigator, \x27plugins\x27, \x7bget: () => pluginArray, enumerable: true\x7d);\n",
    "    \x7d)();\n",
    "\n",
    "    // ===== 4. Permission API spoofing =====\n",
    "    (function() \x7b\n",
    "        const origQuery = window.navigator.permissions.query;\n",
    "        window.navigator.permissions.query = (params) => \x7b\n",
    "            if (params.name === \x27notifications\x27) \x7b\n",
    "                return Promise.resolve(\x7bstate: Notification.permission, onchange: null\x7d);\n",
    "            \x7d\n",
    "            if (params.name === \x27midi\x27 || params.name === \x27camera\x27 || params.name === \x27microphone\x27) \x7b\n",
    "                return Promise.resolve(\x7bstate: \x27prompt\x27, onchange: null\x7d);\n",
    "            \x7d\n",
    "            return origQuery.call(window.navigator.permissions, params);\n",
    "        \x7d;\n",
    "    \x7d)();\n",
    "\n",
    "    // ===== 5. Chrome runtime object =====\n",
    "    window.chrome = \x7b\n",
    "        runtime: \x7b\n",
    "            onConnect: null,\n",
    "            onMessage: null,\n",
    "            connect: function() \x7b return \x7bonMessage: \x7baddListener: function()\x7b\x7d\x7d, postMessage: function()\x7b\x7d\x7d; \x7d,\n",
    "            sendMessage: function() \x7b\x7d,\n",
    "            id: undefined,\n",
    "        \x7d,\n",
    "        loadTimes: function() \x7b\n",
    "            return \x7b\n",
    "                commitLoadTime: Date.now() / 1000,\n",
    "                connectionInfo: \x27h2\x27,\n",
    "                finishDocumentLoadTime: Date.now() / 1000,\n",
    "                finishLoadTime: Date.now() / 1000,\n",
    "                firstPaintAfterLoadTime: 0,\n",
    "                firstPaintTime: Date.now() / 1000,\n",
    "                navigationType: \x27Other\x27,\n",
    "                npnNegotiatedProtocol: \x27h2\x27,\n",
    "                requestTime: Date.now() / 1000,\n",
    "                startLoadTime: Date.now() / 1000,\n",
    "                wasAlternateProtocolAvailable: false,\n",
    "                wasFetchedViaSpdy: true,\n",
    "                wasNpnNegotiated: true,\n",
    "            \x7d;\n",
    "        \x7d,\n",
    "        csi: function() \x7b\n",
    "            return \x7b\n",
    "                onloadT: Date.now(),\n",
    "                pageT: Date.now() - performance.timing.navigationStart,\n",
    "                startE: performance.timing.navigationStart,\n",
    "                tran: 15,\n",
    "            \x7d;\n",
    "        \x7d,\n",
    "    \x7d;\n",
    "\n",
    "    // ===== 6. Screen metrics spoofing =====\n",
    "    Object.defineProperty(screen, \x27width\x27, \x7bget: () => ",
    toString screen.width,
    "\x7d);\n",
    "    Object.defineProperty(screen, \x27height\x27, \x7bget: () => ",
    toString screen.height,
    "\x7d);\n",
    "    Object.defineProperty(screen, \x27availWidth\x27, \x7bget: () => ",
    toString screen.avail_width,
    "\x7d);\n",
    "    Object.defineProperty(screen, \x27availHeight\x27, \x7bget: () => ",
    toString screen.avail_height,
    "\x7d);\n",
    "    Object.defineProperty(screen, \x27colorDepth\x27, \x7bget: () => ",
    toString screen.color_depth,
    "\x7d);\n",
    "    Object.defineProperty(screen, \x27pixelDepth\x27, \x7bget: () => ",
    toString screen.color_depth,
    "\x7d);\n",
    "    Object.defineProperty(window, \x27devicePixelRatio\x27, \x7bget: () => ",
    pyNumStr screen.dpr,
    "\x7d);\n",
    "    Object.defineProperty(window, \x27outerWidth\x27, \x7bget: () => ",
    toString screen.width,
    "\x7d);\n",
    "    Object.defineProperty(window, \x27outerHeight\x27, \x7bget: () => ",
    toString screen.height,
    "\x7d);\n",
    "\n",
    "    // ===== 7. Hardware concurrency & device memory =====\n",
    "    Object.defineProperty(navigator, \x27hardwareConcurrency\x27, \x7bget: () => ",
    toString hw,
    "\x7d);\n",
    "    Object.defineProperty(navigator, \x27deviceMemory\x27, \x7bget: () => ",
    toString mem,
    "\x7d);\n",
    "\n",
    "    // ===== 8. Canvas fingerprint poisoning =====\n",
    "    (function() \x7b\n",
    "        const seed = ",
    toString canvas_seed,
    ";\n",
    "        const origToDataURL = HTMLCanvasElement.prototype.toDataURL;\n",
    "        const origGetImageData = CanvasRenderingContext2D.prototype.getImageData;\n",
    "        const origToBlob = HTMLCanvasElement.prototype.toBlob;\n",
    "\n",
    "        function noise(seed, idx) \x7b\n",
    "            let x = Math.sin(seed + idx) * 10000;\n",
    "            return (x - Math.floor(x)) * 2 - 1;  // -1 to 1\n",
    "        \x7d\n",
    "\n",
    "        HTMLCanvasElement.prototype.toDataURL = function() \x7b\n",
    "            const ctx = this.getContext(\x272d\x27);\n",
    "            if (ctx && this.width > 0 && this.height > 0) \x7b\n",
    "                try \x7b\n",
    "                    const imgData = origGetImageData.call(ctx, 0, 0, Math.min(this.width, 16), Math.min(this.height, 16));\n",
    "                    for (let i = 0; i < imgData.data.length; i += 4) \x7b\n",
    "                        imgData.data[i] = Math.max(0, Math.min(255, imgData.data[i] + Math.floor(noise(seed, i) * 1.5)));\n",
    "                    \x7d\n",
    "                    ctx.putImageData(imgData, 0, 0);\n",
    "                \x7d catch(e) \x7b\x7d\n",
    "            \x7d\n",
    "            return origToDataURL.apply(this, arguments);\n",
    "        \x7d;\n",
    "\n",
    "        HTMLCanvasElement.prototype.toBlob = function() \x7b\n",
    "            const ctx = this.getContext(\x272d\x27);\n",
    "            if (ctx && this.width > 0 && this.height > 0) \x7b\n",
    "                try \x7b\n",
    "                    const imgData = origGetImageData.call(ctx, 0, 0, Math.min(this.width, 16), Math.min(this.height, 16));\n",
    "                    for (let i = 0; i < imgData.data.length; i += 4) \x7b\n",
    "                        imgData.data[i] = Math.max(0, Math.min(255, imgData.data[i] + Math.floor(noise(seed, i) * 1.5)));\n",
    "                    \x7d\n",
    "                    ctx.putImageData(imgData, 0, 0);\n",
    "                \x7d catch(e) \x7b\x7d\n",
    "            \x7d\n",
    "            return origToBlob.apply(this, arguments);\n",
    "        \x7d;\n",
    "    \x7d)();\n",
    "\n",
    "    // ===== 9. AudioContext fingerprint spoofing =====\n",
    "    (function() \x7b\n",
    "        const audioSeed = ",
    pyNumStr audio_seed,
    ";\n",
    "        const origCreateOscillator = AudioContext.prototype.createOscillator;\n",
    "        const origGetChannelData = AudioBuffer.prototype.getChannelData;\n",
    "\n",
    "        AudioBuffer.prototype.getChannelData = function() \x7b\n",
    "            const data = origGetChannelData.apply(this, arguments);\n",
    "            // Add tiny noise to first few samples\n",
    "            for (let i = 0; i < Math.min(data.length, 100); i++) \x7b\n",
    "                data[i] += audioSeed * (Math.sin(i * 0.01) * 0.00001);\n",
    "            \x7d\n",
    "            return data;\n",
    "        \x7d;\n",
    "\n",
    "        // Also patch OfflineAudioContext\n",
    "        if (window.OfflineAudioContext) \x7b\n",
    "            const origResume = OfflineAudioContext.prototype.startRendering;\n",
    "            OfflineAudioContext.prototype.startRendering = function() \x7b\n",
    "                return origResume.apply(this, arguments);\n",
    "            \x7d;\n",
    "        \x7d\n",
    "    \x7d)();\n",
    "\n",
    "    // ===== 10. WebGL fingerprint override =====\n",
    "    (function() \x7b\n",
    "        const getParameterOrig = WebGLRenderingContext.prototype.getParameter;\n",
    "        WebGLRenderingContext.prototype.getParameter = function(param) \x7b\n",
    "            if (param === 37445) return \x27",
    webgl.vendor,
    "\x27;   // UNMASKED_VENDOR_WEBGL\n",
    "            if (param === 37446) return \x27",
    webgl.renderer,
    "\x27; // UNMASKED_RENDERER_WEBGL\n",
    "            return getParameterOrig.call(this, param);\n",
    "        \x7d;\n",
    "        // Also patch WebGL2\n",
    "        if (window.WebGL2RenderingContext) \x7b\n",
    "            const getParam2Orig = WebGL2RenderingContext.prototype.getParameter;\n",
    "            WebGL2RenderingContext.prototype.getParameter = function(param) \x7b\n",
    "                if (param === 37445) return \x27",
    webgl.vendor,
    "\x27;\n",
    "                if (param === 37446) return \x27",
    webgl.renderer,
    "\x27;\n",
    "                return getParam2Orig.call(this, param);\n",
    "            \x7d;\n",
    "        \x7d\n",
    "        // Patch getExtension for WEBGL_debug_renderer_info\n",
    "        const origGetExtension = WebGLRenderingContext.prototype.getExtension;\n",
    "        WebGLRenderingContext.prototype.getExtension = function(name) \x7b\n",
    "            if (name === \x27WEBGL_debug_renderer_info\x27) \x7b\n",
    "                return \x7bUNMASKED_VENDOR_WEBGL: 37445, UNMASKED_RENDERER_WEBGL: 37446\x7d;\n",
    "            \x7d\n",
    "            return origGetExtension.call(this, name);\n",
    "        \x7d;\n",
    "    \x7d)();\n",
    "\n",
    "    // ===== 11. Font detection defense =====\n",
    "    (function() \x7b\n",
    "        const allowedFonts = ",
    fonts_json,
    ";\n",
    "        const origFontCheck = document.fonts ? document.fonts.check.bind(document.fonts) : null;\n",
    "        if (document.fonts && origFontCheck) \x7b\n",
    "            document.fonts.check = function(font, text) \x7b\n",
    "                const fontName = font.replace(/\\d+px\\s+/i, \x27\x27).replace(/[\x27\"]/g, \x27\x27).trim();\n",
    "                if (allowedFonts.some(f => fontName.toLowerCase().includes(f.toLowerCase()))) \x7b\n",
    "                    return origFontCheck(font, text);\n",
    "                \x7d\n",
    "                return false;\n",
    "            \x7d;\n",
    "        \x7d\n",
    "    \x7d)();\n",
    "\n",
    "    // ===== 12. Platform consistency =====\n",
    "    Object.defineProperty(navigator, \x27platform\x27, \x7bget: () => \x27",
    platform.platform,
    "\x27\x7d);\n",
    "\n",
    "    // ===== 13. WebRTC leak prevention (disable public IP exposure) =====\n",
    "    (function() \x7b\n",
    "        if (window.RTCPeerConnection) \x7b\n",
    "            const origRTC = window.RTCPeerConnection;\n",
    "            window.RTCPeerConnection = function(config) \x7b\n",
    "                if (config && config.iceServers) \x7b\n",
    "                    config.iceServers = [];  // Remove STUN servers to prevent IP leak\n",
    "                \x7d\n",
    "                return new origRTC(config);\n",
    "            \x7d;\n",
    "            window.RTCPeerConnection.prototype = origRTC.prototype;\n",
    "        \x7d\n",
    "    \x7d)();\n",
    "    "]

/-- An element selected by a valid index with `List.getD` is a member. -/
theorem getD_mem {α : Type} (l : List α) (i : Nat) (d : α)
    (h : i < l.length) : l.getD i d ∈ l := by
  induction l generalizing i with
  | nil => simp at h
  | cons a t ih =>
    cases i with
    | zero => simp [List.getD]
    | succ n =>
      simp only [List.getD_cons_succ]
      exact List.mem_cons_of_mem a (ih n (by simpa using h))

/-- `uniform a b r` lies in [a, b] when r lies in [0, 1]. -/
theorem uniform_mem {a b r : Rat} (hab : a ≤ b) (h0 : 0 ≤ r) (h1 : r ≤ 1) :
    a ≤ uniform a b r ∧ uniform a b r ≤ b := by
  unfold uniform
  constructor
  · nlinarith
  · nlinarith

/-- Python `int()` is the identity on integers. -/
theorem pyInt_intCast (m : Int) : pyInt (m : Rat) = m := by
  unfold pyInt
  split_ifs with h
  · rw [← Int.cast_neg, Int.floor_intCast, neg_neg]
  · exact Int.floor_intCast m

/-- Python `int()` of a nonnegative value is nonnegative. -/
theorem pyInt_nonneg {q : Rat} (h : 0 ≤ q) : 0 ≤ pyInt q := by
  unfold pyInt
  rw [if_neg (not_lt.2 h)]
  exact Int.floor_nonneg.2 h

/-- Python `int()` of a nonnegative value below an integer stays below it. -/
theorem pyInt_le_intCast {q : Rat} {m : Int} (h0 : 0 ≤ q) (h : q ≤ (m : Rat)) :
    pyInt q ≤ m := by
  unfold pyInt
  rw [if_neg (not_lt.2 h0)]
  calc Int.floor q ≤ Int.floor ((m : Rat)) := Int.floor_le_floor h
    _ = m := Int.floor_intCast m

/-- C1: for every region and every outcome of the randomness source, the
generated profile's fonts list is exactly the font catalogue keyed by its
platform's os family (in particular a macos platform never pairs with the
Windows font list), and its timezone entry is a single row of the selected
region's table. -/
theorem fingerprint_joint_draw (region : String) (r : FingerprintRand)
    (h : r.Valid region) :
    pyGet FONT_SETS (_generate_fingerprint_profile region r).platform.os
        = some (_generate_fingerprint_profile region r).fonts
    ∧ ((_generate_fingerprint_profile region r).platform.os = "macos" →
        (_generate_fingerprint_profile region r).fonts ≠ FONTS_WINDOWS)
    ∧ (_generate_fingerprint_profile region r).timezone ∈ tzListFor region := by
  obtain ⟨wi, si, pi, ti, cd, ad⟩ := r
  obtain ⟨-, -, hp, ht, -, -, -, -⟩ := h
  refine ⟨?_, ?_, ?_⟩
  · have hp7 : pi < 7 := by simpa [PLATFORM_PROFILES] using hp
    show pyGet FONT_SETS (PLATFORM_PROFILES.getD pi ⟨"", "", "", 0, 0⟩).os
        = some (pyGetD FONT_SETS
            (PLATFORM_PROFILES.getD pi ⟨"", "", "", 0, 0⟩).os FONTS_WINDOWS)
    interval_cases pi <;> decide
  · have hp7 : pi < 7 := by simpa [PLATFORM_PROFILES] using hp
    show (PLATFORM_PROFILES.getD pi ⟨"", "", "", 0, 0⟩).os = "macos" →
        pyGetD FONT_SETS
            (PLATFORM_PROFILES.getD pi ⟨"", "", "", 0, 0⟩).os FONTS_WINDOWS
          ≠ FONTS_WINDOWS
    interval_cases pi <;> decide
  · exact getD_mem _ _ _ ht

/-- Witness for C1 at region "US" with the macOS platform row. -/
theorem fingerprint_joint_draw_witness :
    (FingerprintRand.Valid ⟨0, 0, 3, 0, 1, 0⟩ "US")
    ∧ (pyGet FONT_SETS
          (_generate_fingerprint_profile "US" ⟨0, 0, 3, 0, 1, 0⟩).platform.os
        = some (_generate_fingerprint_profile "US" ⟨0, 0, 3, 0, 1, 0⟩).fonts
      ∧ ((_generate_fingerprint_profile "US" ⟨0, 0, 3, 0, 1, 0⟩).platform.os
            = "macos" →
          (_generate_fingerprint_profile "US" ⟨0, 0, 3, 0, 1, 0⟩).fonts
            ≠ FONTS_WINDOWS)
      ∧ (_generate_fingerprint_profile "US" ⟨0, 0, 3, 0, 1, 0⟩).timezone
          ∈ tzListFor "US") :=
  ⟨by decide, fingerprint_joint_draw "US" ⟨0, 0, 3, 0, 1, 0⟩ (by decide)⟩

/-- C5 counterexample: `random.randint(1, 2**31)` is inclusive at both
ends, so the outcome 2^31 is a possible draw, and the profile it yields has
`canvas_seed = 2^31`, outside the claimed half-open interval [1, 2^31). -/
theorem canvas_seed_cex :
    FingerprintRand.Valid ⟨0, 0, 0, 0, 2 ^ 31, 0⟩ "US"
    ∧ ¬ ((_generate_fingerprint_profile "US"
          ⟨0, 0, 0, 0, 2 ^ 31, 0⟩).canvas_seed < 2 ^ 31) := by
  constructor
  · decide
  · decide

/-- C5 amended: for every region and every outcome of the randomness
source, the canvas noise seed lies in the closed interval [1, 2^31]. -/
theorem canvas_seed_range (region : String) (r : FingerprintRand)
    (h : r.Valid region) :
    1 ≤ (_generate_fingerprint_profile region r).canvas_seed
    ∧ (_generate_fingerprint_profile region r).canvas_seed ≤ 2 ^ 31 :=
  ⟨h.2.2.2.2.1, h.2.2.2.2.2.1⟩

/-- Witness for the amended C5. -/
theorem canvas_seed_range_witness :
    FingerprintRand.Valid ⟨1, 1, 0, 1, 5, 0⟩ "US"
    ∧ (1 ≤ (_generate_fingerprint_profile "US" ⟨1, 1, 0, 1, 5, 0⟩).canvas_seed
      ∧ (_generate_fingerprint_profile "US" ⟨1, 1, 0, 1, 5, 0⟩).canvas_seed
          ≤ 2 ^ 31) :=
  ⟨by decide, canvas_seed_range "US" ⟨1, 1, 0, 1, 5, 0⟩ (by decide)⟩

/-- C2: the stealth-script synthesizer is deterministic — two profiles with
equal field values yield identical script strings; `_build_stealth_js` is a
pure function of its profile argument. -/
theorem build_stealth_js_deterministic (p q : Profile)
    (h1 : p.webgl = q.webgl) (h2 : p.screen = q.screen)
    (h3 : p.platform = q.platform) (h4 : p.timezone = q.timezone)
    (h5 : p.fonts = q.fonts) (h6 : p.canvas_seed = q.canvas_seed)
    (h7 : p.audio_seed = q.audio_seed)
    (h8 : p.hw_concurrency = q.hw_concurrency)
    (h9 : p.device_memory = q.device_memory) :
    _build_stealth_js p = _build_stealth_js q := by
  have hpq : p = q := by
    cases p; cases q; simp_all
  rw [hpq]

/-- Witness for C2 at a concretely generated profile. -/
theorem build_stealth_js_deterministic_witness :
    _build_stealth_js (_generate_fingerprint_profile "US" ⟨0, 0, 0, 0, 1, 0⟩)
      = _build_stealth_js
          (_generate_fingerprint_profile "US" ⟨0, 0, 0, 0, 1, 0⟩) :=
  build_stealth_js_deterministic _ _ rfl rfl rfl rfl rfl rfl rfl rfl rfl

/-- C3 counterexample: with the stealth-script injection call rejected,
`start()` returns the very same success dict as when the injection
succeeds — the absence of the injection is not observable in `start()`'s
result. -/
theorem injection_swallowed_cex :
    resultOf (start ⟨"US", ⟨0, 0, 0, 0, 1, 0⟩, false, false, false, false,
        true⟩ ⟨none, false, false, false⟩)
      = resultOf (start ⟨"US", ⟨0, 0, 0, 0, 1, 0⟩, false, false, false,
          false, false⟩ ⟨none, false, false, false⟩)
    ∧ (resultOf (start ⟨"US", ⟨0, 0, 0, 0, 1, 0⟩, false, false, false,
        false, true⟩ ⟨none, false, false, false⟩)).map StartResult.success
      = some true := by
  constructor
  · rfl
  · rfl

/-- C3 amended: if the browser rejects the stealth-script injection during
`start()`, the startup still completes and returns a success result, but
that result is identical to the one returned when the injection succeeds —
the failure is silently swallowed, not observable to the controller in
`start()`'s result. -/
theorem injection_failure_nonfatal (env : StartEnv) (s0 : StartState)
    (h : env.chrome1Fails = false ∨ env.chrome2Fails = false) :
    (resultOf (start env s0)).map StartResult.success = some true
    ∧ resultOf (start env s0)
        = resultOf (start { env with injectionFails := false } s0) := by
  obtain ⟨reg, rand, hn, df, c1, c2, inj⟩ := env
  rcases h with h | h
  · subst h
    exact ⟨rfl, rfl⟩
  · subst h
    cases c1 <;> exact ⟨rfl, rfl⟩

/-- Witness for the amended C3, with the injection call rejected. -/
theorem injection_failure_nonfatal_witness :
    ((⟨"US", ⟨0, 0, 0, 0, 1, 0⟩, false, false, false, false, true⟩ :
        StartEnv).chrome1Fails = false
      ∨ (⟨"US", ⟨0, 0, 0, 0, 1, 0⟩, false, false, false, false, true⟩ :
          StartEnv).chrome2Fails = false)
    ∧ ((resultOf (start ⟨"US", ⟨0, 0, 0, 0, 1, 0⟩, false, false, false,
          false, true⟩ ⟨none, true, false, false⟩)).map StartResult.success
        = some true
      ∧ resultOf (start ⟨"US", ⟨0, 0, 0, 0, 1, 0⟩, false, false, false,
          false, true⟩ ⟨none, true, false, false⟩)
        = resultOf (start { (⟨"US", ⟨0, 0, 0, 0, 1, 0⟩, false, false, false,
            false, true⟩ : StartEnv) with injectionFails := false }
            ⟨none, true, false, false⟩)) :=
  ⟨Or.inl rfl,
   injection_failure_nonfatal _ ⟨none, true, false, false⟩ (Or.inl rfl)⟩

/-- C4 counterexample: with the display acquired and both browser
construction attempts failing, `start()` propagates the failure while the
virtual display is still running — it is not stopped/released first. -/
theorem display_leak_cex :
    (errorStateOf (start ⟨"US", ⟨0, 0, 0, 0, 1, 0⟩, false, false, true,
        true, false⟩ ⟨none, false, false, false⟩)).map
      StartState.displayRunning = some true := by
  rfl

/-- C4 amended: if `start()` acquires the virtual display and browser
construction subsequently fails so that `start()` raises, the virtual
display is left running when the failure propagates — it is not stopped or
released first. -/
theorem display_left_running_on_faulted_start (env : StartEnv)
    (s0 : StartState)
    (h1 : env.headlessNew = false) (h2 : env.displayStartFails = false)
    (h3 : env.chrome1Fails = true) (h4 : env.chrome2Fails = true) :
    (errorStateOf (start env s0)).map StartState.displayRunning
      = some true := by
  obtain ⟨reg, rand, hn, df, c1, c2, inj⟩ := env
  subst h1
  subst h2
  subst h3
  subst h4
  rfl

/-- Witness for the amended C4. -/
theorem display_left_running_on_faulted_start_witness :
    ((⟨"EU", ⟨1, 0, 0, 0, 7, 0⟩, false, false, true, true, false⟩ :
        StartEnv).headlessNew = false
      ∧ (⟨"EU", ⟨1, 0, 0, 0, 7, 0⟩, false, false, true, true, false⟩ :
          StartEnv).displayStartFails = false
      ∧ (⟨"EU", ⟨1, 0, 0, 0, 7, 0⟩, false, false, true, true, false⟩ :
          StartEnv).chrome1Fails = true
      ∧ (⟨"EU", ⟨1, 0, 0, 0, 7, 0⟩, false, false, true, true, false⟩ :
          StartEnv).chrome2Fails = true)
    ∧ (errorStateOf (start ⟨"EU", ⟨1, 0, 0, 0, 7, 0⟩, false, false, true,
        true, false⟩ ⟨none, false, true, false⟩)).map
      StartState.displayRunning = some true :=
  ⟨⟨rfl, rfl, rfl, rfl⟩,
   display_left_running_on_faulted_start _ ⟨none, false, true, false⟩
     rfl rfl rfl rfl⟩

/-- The per-character event block inserts exactly its character. -/
theorem typedChars_typeEventsFor (isupper : Char → Bool) (c : Char)
    (r : CharRand) : typedChars (typeEventsFor isupper c r) = [c] := by
  unfold typedChars typeEventsFor
  by_cases hp : r.pauseDraw < 5/100 <;> simp [hp]

/-- The per-character event block contains exactly one insertion event. -/
theorem sendCount_typeEventsFor (isupper : Char → Bool) (c : Char)
    (r : CharRand) : sendCount (typeEventsFor isupper c r) = 1 := by
  unfold sendCount typeEventsFor
  by_cases hp : r.pauseDraw < 5/100 <;> simp [hp, List.countP_cons]

/-- `typedChars` distributes over concatenation. -/
theorem typedChars_append (l1 l2 : List TypeEvent) :
    typedChars (l1 ++ l2) = typedChars l1 ++ typedChars l2 :=
  List.filterMap_append l1 l2 _

/-- `sendCount` distributes over concatenation. -/
theorem sendCount_append (l1 l2 : List TypeEvent) :
    sendCount (l1 ++ l2) = sendCount l1 + sendCount l2 :=
  List.countP_append _ l1 l2

/-- The delay bounds of every character class are ordered. -/
theorem charDelayBounds_le (isupper : Char → Bool) (c : Char) :
    (charDelayBounds isupper c).1 ≤ (charDelayBounds isupper c).2 := by
  unfold charDelayBounds
  split_ifs <;> norm_num

/-- C6: for every Unicode `str.isupper` classifier, every text and every
outcome of the randomness source, `_human_type_text` emits one discrete
`send_keys` event per character (so a text of length n produces exactly n
insertion events, spelling the text in order), each followed by a base
delay within its character class's bounds ([0.08, 0.20] for space and
punctuation, [0.05, 0.15] for uppercase, [0.03, 0.12] otherwise, classes
judged by the same classifier the program consults), plus — exactly when
the per-character pause draw is below 0.05 — an extra thinking pause in
[0.3, 0.8] seconds. -/
theorem human_type_text_plan (isupper : Char → Bool) (text : List Char)
    (rands : Nat → CharRand) (h : ∀ n, (rands n).Valid) :
    KeystrokePlanSpec isupper rands text
      (_human_type_text isupper text rands)
    ∧ typedChars (_human_type_text isupper text rands) = text
    ∧ sendCount (_human_type_text isupper text rands) = text.length := by
  induction text generalizing rands with
  | nil => exact ⟨.nil rands, rfl, rfl⟩
  | cons c cs ih =>
    obtain ⟨hplan, hchars, hcount⟩ := ih (shiftRand rands) (fun n => h (n + 1))
    obtain ⟨hb0, hb1, hp0, hp1, hl0, hl1⟩ := h 0
    have hunf : _human_type_text isupper (c :: cs) rands
        = typeEventsFor isupper c (rands 0)
          ++ _human_type_text isupper cs (shiftRand rands) :=
      rfl
    refine ⟨?_, ?_, ?_⟩
    · rw [hunf]
      have hbd := uniform_mem (charDelayBounds_le isupper c) hb0 hb1
      by_cases hp : (rands 0).pauseDraw < 5/100
      · have hpb := uniform_mem (show (3/10 : Rat) ≤ 8/10 by norm_num) hl0 hl1
        have hev : typeEventsFor isupper c (rands 0)
              ++ _human_type_text isupper cs (shiftRand rands)
            = .sendKeys c
              :: .sleep (uniform (charDelayBounds isupper c).1
                  (charDelayBounds isupper c).2 (rands 0).baseDraw)
              :: .sleep (uniform (3/10) (8/10) (rands 0).pauseLen)
              :: _human_type_text isupper cs (shiftRand rands) := by
          unfold typeEventsFor
          rw [if_pos hp]
          simp
        rw [hev]
        exact .consPause rands c cs _ _ _ hbd.1 hbd.2 hp hpb.1 hpb.2 hplan
      · have hev : typeEventsFor isupper c (rands 0)
              ++ _human_type_text isupper cs (shiftRand rands)
            = .sendKeys c
              :: .sleep (uniform (charDelayBounds isupper c).1
                  (charDelayBounds isupper c).2 (rands 0).baseDraw)
              :: _human_type_text isupper cs (shiftRand rands) := by
          unfold typeEventsFor
          rw [if_neg hp]
          simp
        rw [hev]
        exact .consNoPause rands c cs _ _ hbd.1 hbd.2 hp hplan
    · rw [hunf, typedChars_append, typedChars_typeEventsFor, hchars]
      rfl
    · rw [hunf, sendCount_append, sendCount_typeEventsFor, hcount,
        List.length_cons]
      omega

/-- Witness for C6 at the text "hello world" with a fixed random stream,
instantiating the Unicode classifier with its ASCII restriction
`Char.isUpper` (the two agree on this all-ASCII text). -/
theorem human_type_text_plan_witness :
    (∀ n, ((fun _ : Nat => (⟨0, 0, 1⟩ : CharRand)) n).Valid)
    ∧ (KeystrokePlanSpec Char.isUpper (fun _ : Nat => (⟨0, 0, 1⟩ : CharRand))
        "hello world".toList
        (_human_type_text Char.isUpper "hello world".toList
          (fun _ : Nat => (⟨0, 0, 1⟩ : CharRand)))
      ∧ typedChars (_human_type_text Char.isUpper "hello world".toList
          (fun _ : Nat => (⟨0, 0, 1⟩ : CharRand))) = "hello world".toList
      ∧ sendCount (_human_type_text Char.isUpper "hello world".toList
          (fun _ : Nat => (⟨0, 0, 1⟩ : CharRand)))
        = "hello world".toList.length) :=
  ⟨fun _ => (by decide : CharRand.Valid ⟨0, 0, 1⟩),
   human_type_text_plan Char.isUpper "hello world".toList _
     (fun _ => (by decide : CharRand.Valid ⟨0, 0, 1⟩))⟩

/-- Indexing a mapped range with a valid index. -/
theorem getD_range_map {α : Type} (f : Nat → α) (n i : Nat) (h : i < n)
    (d : α) : ((List.range n).map f).getD i d = f i := by
  rw [List.getD_eq_getElem?_getD, List.getElem?_map, List.getElem?_range h]
  rfl

/-- `_bezier_curve` with steps ≥ 1 yields steps + 1 points whose first
point is exactly the start and whose last point is exactly the end, for
every outcome of the control-point randomness. -/
theorem bezier_first_last (s e : Int × Int) (steps : Nat) (br : BezierRand)
    (h : 1 ≤ steps) :
    (_bezier_curve s e steps br).length = steps + 1
    ∧ (_bezier_curve s e steps br).getD 0 (0, 0) = s
    ∧ (_bezier_curve s e steps br).getD steps (0, 0) = e := by
  have hs0 : ((steps : Nat) : Rat) ≠ 0 := Nat.cast_ne_zero.mpr (by omega)
  refine ⟨?_, ?_, ?_⟩
  · unfold _bezier_curve; simp
  · unfold _bezier_curve
    rw [getD_range_map _ _ _ (by omega)]
    have ht : ((0 : Nat) : Rat) / (steps : Rat) = 0 := by simp
    simp only [ht]
    norm_num [pyInt_intCast]
  · unfold _bezier_curve
    rw [getD_range_map _ _ _ (by omega)]
    have ht : ((steps : Nat) : Rat) / (steps : Rat) = 1 := div_self hs0
    simp only [ht]
    norm_num [pyInt_intCast]

/-- For an extent of at least 2 the truncated offset interval contains at
least two integers: its endpoints are distinct. -/
theorem offset_lo_lt_hi {w : Int} (h2 : 2 ≤ w) :
    pyInt ((2 : Rat)/10 * w) < pyInt ((8 : Rat)/10 * w) := by
  have hw : (2 : Rat) ≤ (w : Rat) := by exact_mod_cast h2
  have h0 : (0 : Rat) ≤ (2 : Rat)/10 * w := by nlinarith
  have h0w : (0 : Rat) ≤ (8 : Rat)/10 * w := by nlinarith
  unfold pyInt
  rw [if_neg (not_lt.2 h0), if_neg (not_lt.2 h0w)]
  have hle : (2 : Rat)/10 * (w : Rat) + 1 ≤ (8 : Rat)/10 * w := by nlinarith
  have hff := Int.floor_le_floor hle
  rw [Int.floor_add_one] at hff
  omega

/-- C7 counterexample: for an element of width 9, `_human_move_to` computes
its x-offset with `random.randint(int(9 * 0.2), int(9 * 0.8))` =
`randint(1, 7)`, so the offset 1 is a possible outcome, yet 1 is below the
claimed lower bound 0.2·width = 1.8 — the offset interval stated in the
claim does not hold. -/
theorem move_offset_cex :
    OffsetRange 9 1 ∧ ¬ ((2 : Rat)/10 * 9 ≤ ((1 : Int) : Rat)) := by
  constructor
  · constructor <;> norm_num [pyInt]
  · norm_num

/-- C7 amended: `_bezier_curve` with integer start/end and steps ≥ 1
returns steps + 1 points, the first exactly the start and the last exactly
the end; `_human_move_to` chooses the end point with offsets in the
truncated interval [int(0.2·extent), int(0.8·extent)] (which can dip below
0.2·extent when that bound is fractional), so the trajectory's final point
always lies within the target element's bounding box; for any element of
width at least 2 the valid offsets are not a single point, so the end point
is not forced to the element's geometric center. -/
theorem bezier_move_spec (loc size : Int × Int) (sx sy ox oy : Int)
    (steps : Nat) (br : BezierRand)
    (hsteps : 1 ≤ steps)
    (hox : OffsetRange size.1 ox) (hoy : OffsetRange size.2 oy)
    (hw : 0 ≤ size.1) (hh : 0 ≤ size.2) :
    (_bezier_curve (sx, sy) (_human_move_to_target loc ox oy) steps
        br).length = steps + 1
    ∧ (_bezier_curve (sx, sy) (_human_move_to_target loc ox oy) steps
        br).getD 0 (0, 0) = (sx, sy)
    ∧ (_bezier_curve (sx, sy) (_human_move_to_target loc ox oy) steps
        br).getD steps (0, 0) = _human_move_to_target loc ox oy
    ∧ loc.1 ≤ (_human_move_to_target loc ox oy).1
    ∧ (_human_move_to_target loc ox oy).1 ≤ loc.1 + size.1
    ∧ loc.2 ≤ (_human_move_to_target loc ox oy).2
    ∧ (_human_move_to_target loc ox oy).2 ≤ loc.2 + size.2
    ∧ (2 ≤ size.1 → ∃ ox2 : Int, OffsetRange size.1 ox2 ∧ ox2 ≠ ox) := by
  have hxq : (0 : Rat) ≤ (size.1 : Rat) := by exact_mod_cast hw
  have hyq : (0 : Rat) ≤ (size.2 : Rat) := by exact_mod_cast hh
  have hox0 : 0 ≤ ox := le_trans (pyInt_nonneg (by nlinarith)) hox.1
  have hox1 : ox ≤ size.1 :=
    le_trans hox.2 (pyInt_le_intCast (by nlinarith) (by nlinarith))
  have hoy0 : 0 ≤ oy := le_trans (pyInt_nonneg (by nlinarith)) hoy.1
  have hoy1 : oy ≤ size.2 :=
    le_trans hoy.2 (pyInt_le_intCast (by nlinarith) (by nlinarith))
  obtain ⟨hl, hf, hla⟩ :=
    bezier_first_last (sx, sy) (_human_move_to_target loc ox oy) steps br
      hsteps
  refine ⟨hl, hf, hla, ?_, ?_, ?_, ?_, ?_⟩
  · simp only [_human_move_to_target]
    omega
  · simp only [_human_move_to_target]
    omega
  · simp only [_human_move_to_target]
    omega
  · simp only [_human_move_to_target]
    omega
  · intro h2
    by_cases he : ox = pyInt ((2 : Rat)/10 * size.1)
    · exact ⟨pyInt ((8 : Rat)/10 * size.1),
        ⟨le_of_lt (offset_lo_lt_hi h2), le_refl _⟩,
        by rw [he]; exact (offset_lo_lt_hi h2).ne'⟩
    · exact ⟨pyInt ((2 : Rat)/10 * size.1),
        ⟨le_refl _, le_of_lt (offset_lo_lt_hi h2)⟩,
        fun e => he e.symm⟩

/-- Witness for the amended C7. -/
theorem bezier_move_spec_witness :
    (1 ≤ 2 ∧ OffsetRange 100 30 ∧ OffsetRange 50 15
      ∧ (0 : Int) ≤ 100 ∧ (0 : Int) ≤ 50)
    ∧ ((_bezier_curve (100, 100) (_human_move_to_target (10, 20) 30 15) 2
          ⟨0, 0, 0, 0, 0, 0, 0, 0⟩).length = 2 + 1
      ∧ (_bezier_curve (100, 100) (_human_move_to_target (10, 20) 30 15) 2
          ⟨0, 0, 0, 0, 0, 0, 0, 0⟩).getD 0 (0, 0) = (100, 100)
      ∧ (_bezier_curve (100, 100) (_human_move_to_target (10, 20) 30 15) 2
          ⟨0, 0, 0, 0, 0, 0, 0, 0⟩).getD 2 (0, 0)
        = _human_move_to_target (10, 20) 30 15
      ∧ ((10, 20) : Int × Int).1 ≤ (_human_move_to_target (10, 20) 30 15).1
      ∧ (_human_move_to_target (10, 20) 30 15).1
          ≤ ((10, 20) : Int × Int).1 + ((100, 50) : Int × Int).1
      ∧ ((10, 20) : Int × Int).2 ≤ (_human_move_to_target (10, 20) 30 15).2
      ∧ (_human_move_to_target (10, 20) 30 15).2
          ≤ ((10, 20) : Int × Int).2 + ((100, 50) : Int × Int).2
      ∧ (2 ≤ ((100, 50) : Int × Int).1 →
          ∃ ox2 : Int, OffsetRange ((100, 50) : Int × Int).1 ox2
            ∧ ox2 ≠ 30)) :=
  ⟨⟨by decide, by norm_num [OffsetRange, pyInt], by norm_num [OffsetRange, pyInt],
    by decide, by decide⟩,
   bezier_move_spec (10, 20) (100, 50) 100 100 30 15 2 ⟨0, 0, 0, 0, 0, 0, 0, 0⟩
     (by decide) (by norm_num [OffsetRange, pyInt])
     (by norm_num [OffsetRange, pyInt]) (by decide) (by decide)⟩

/-- C8: for every session state (empty initial dict or a generated
profile), the `get_stealth_profile` response reports success and its
profile payload carries exactly the eight documented keys — platform,
screen geometry, WebGL vendor, WebGL renderer, timezone, locale, hardware
concurrency, device memory — and neither the canvas noise seed nor the
audio noise seed. -/
theorem get_stealth_profile_fields (sp : Option Profile) :
    (get_stealth_profile_response sp).1 = true
    ∧ (get_stealth_profile_response sp).2.map Prod.fst
        = ["platform", "screen", "webgl_vendor", "webgl_renderer",
           "timezone", "locale", "hw_concurrency", "device_memory"]
    ∧ "canvas_seed" ∉ (get_stealth_profile_response sp).2.map Prod.fst
    ∧ "audio_seed" ∉ (get_stealth_profile_response sp).2.map Prod.fst := by
  cases sp with
  | none => exact ⟨rfl, rfl, by decide, by decide⟩
  | some p =>
    have hk : (get_stealth_profile_response (some p)).2.map Prod.fst
        = ["platform", "screen", "webgl_vendor", "webgl_renderer",
           "timezone", "locale", "hw_concurrency", "device_memory"] := rfl
    exact ⟨rfl, hk, by rw [hk]; decide, by rw [hk]; decide⟩

/-- C9: the fingerprint profile global is written exactly once, inside
`start()`, and `handle_command` never writes or mutates it — for every
action, every effect of the external browser calls, and every state, the
`_stealth_profile` component is identical before and after the dispatch. -/
theorem stealth_profile_immutable :
    (∀ (B : Type) (action : String) (eff : B → B) (s : EngineState B),
        (handle_command_state action eff s).stealthProfile
          = s.stealthProfile)
    ∧ (∀ (env : StartEnv) (s0 : StartState),
        startProfileOf (start env s0)
          = some (_generate_fingerprint_profile env.region env.rand)) := by
  constructor
  · intro B action eff s
    unfold handle_command_state
    split_ifs <;> rfl
  · intro env s0
    obtain ⟨reg, rand, hn, df, c1, c2, inj⟩ := env
    cases hn <;> cases df <;> cases c1 <;> cases c2 <;> rfl

/-- C10: `by_str` maps every locator-strategy string outside the
recognized set to the CSS-selector strategy — an unrecognized or misspelled
`by` value silently selects CSS instead of failing. -/
theorem by_str_fallback (s : String)
    (h : s ∉ ["css", "xpath", "id", "class", "tag", "name", "link_text",
              "partial_link_text"]) :
    by_str s = ByStrategy.CSS_SELECTOR := by
  simp only [List.mem_cons, List.not_mem_nil, or_false, not_or] at h
  obtain ⟨h1, h2, h3, h4, h5, h6, h7, h8⟩ := h
  unfold by_str pyGetD pyGet BY_MAP
  rw [List.find?_cons_of_neg _ (by simpa using fun e => h1 e.symm),
    List.find?_cons_of_neg _ (by simpa using fun e => h2 e.symm),
    List.find?_cons_of_neg _ (by simpa using fun e => h3 e.symm),
    List.find?_cons_of_neg _ (by simpa using fun e => h4 e.symm),
    List.find?_cons_of_neg _ (by simpa using fun e => h5 e.symm),
    List.find?_cons_of_neg _ (by simpa using fun e => h6 e.symm),
    List.find?_cons_of_neg _ (by simpa using fun e => h7 e.symm),
    List.find?_cons_of_neg _ (by simpa using fun e => h8 e.symm)]
  rfl

/-- Witness for C10 at the misspelled strategy string "cssx". -/
theorem by_str_fallback_witness :
    ("cssx" ∉ ["css", "xpath", "id", "class", "tag", "name", "link_text",
               "partial_link_text"])
    ∧ by_str "cssx" = ByStrategy.CSS_SELECTOR :=
  ⟨by decide, by_str_fallback "cssx" (by decide)⟩

end AutoMate
